import Mathlib

/-!
Verification of the storage-fallback backend of the educational-content
platform (TypeScript sources under `src/`).

The volatile backend (`MemoryStore`, src/unnamed/part_000), the generation
dispatcher (`AIService`, src/server/src/services/aiService.ts) and the
resource controllers (src/server/src/controllers/aiController.ts) are
shallowly embedded below.  Each definition is translated from the named
source function; JavaScript-specific behaviour (truthiness guards, `slice`
semantics, `Array.prototype.sort` with the comparator the source supplies)
is modelled explicitly where a claim depends on it.  Dates (`new Date()`,
`Date.now()`) are modelled as explicit `Nat` clock parameters; the bcrypt
hash is an opaque `String` argument supplied by the caller, as the hash
itself never influences control flow in the embedded operations.
-/

namespace Contest

/-- JavaScript truthiness of an optional string value: `undefined` and the
empty string are falsy, every other string is truthy.  Used to model guards
of the form `if (query.creator)`. -/
def optStrTruthy : Option String → Bool
  | some s => s ≠ ""
  | none => false

/-- JavaScript `a || d` for an optional string `a` and default `d`:
`undefined` and `""` fall back to the default. -/
def jsOrStr (o : Option String) (d : String) : String :=
  match o with
  | some s => if s = "" then d else s
  | none => d

/-- JavaScript `String.prototype.includes` for a non-empty pattern:
`s.splitOn pat` has more than one chunk exactly when `pat` occurs in `s`. -/
def strIncludes (s pat : String) : Bool :=
  (s.splitOn pat).length != 1

/-! ## Volatile backend data model (src/unnamed/part_000, `MemoryStore`) -/

/-- Nested `preferences` object of `MemoryUser.profile` (part_000 lines 17-22). -/
structure UserPreferences where
  language : String
  theme : String
  aiModels : List String
  contentTypes : List String
deriving DecidableEq, Repr

/-- `profile` object of `MemoryUser` (part_000 lines 12-23). -/
structure UserProfile where
  displayName : String
  bio : String
  institution : String
  subjects : List String
  preferences : UserPreferences
deriving DecidableEq, Repr

/-- `MemoryUser` (part_000 lines 6-27); `createdAt`/`updatedAt` dates are
modelled as `Nat` timestamps. -/
structure MemoryUser where
  _id : String
  username : String
  email : String
  password : String
  role : String
  profile : UserProfile
  createdAt : Nat
  updatedAt : Nat
  lastLoginAt : Option Nat
deriving DecidableEq, Repr

/-- `MemoryResource` (part_000 lines 43-56).  The `content` and `metadata`
fields are `any` in the source and are modelled as opaque strings; dates are
`Nat` timestamps; `contentType` and `category` are the string literals the
source compares with `===`.  Note the source interface has no `views` and no
`likes` field and `MemoryStore` records are plain objects with no `save`
method — this matters for the view-counter claim. -/
structure MemoryResource where
  _id : String
  title : String
  description : String
  content : String
  contentType : String
  category : String
  tags : List String
  creator : String
  isPublic : Bool
  metadata : String
  createdAt : Nat
  updatedAt : Nat
deriving DecidableEq, Repr

/-- State of the `MemoryStore` class (part_000 lines 58-63): the user map is
an insertion-ordered association list, as a JavaScript `Map` is. -/
structure MemoryStoreState where
  users : List (String × MemoryUser)
  userIdCounter : Nat
  resourceIdCounter : Nat
  resources : List MemoryResource
deriving Repr

/-- JavaScript `Map.prototype.set`: replace in place when the key exists,
append otherwise. -/
def mapSet (m : List (String × MemoryUser)) (k : String) (v : MemoryUser) :
    List (String × MemoryUser) :=
  if m.any (fun p => p.1 == k) then
    m.map (fun p => if p.1 == k then (k, v) else p)
  else
    m ++ [(k, v)]

/-- Argument object of `MemoryStore.createUser` (part_000 lines 76-81). -/
structure CreateUserData where
  username : String
  email : String
  password : String
  role : String
deriving DecidableEq, Repr

/-- The duplicate scan of `MemoryStore.createUser` (part_000 lines 83-85):
`Array.from(this.users.values()).find(u => u.email === d.email || u.username === d.username)`. -/
def hasDuplicateUser (s : MemoryStoreState) (d : CreateUserData) : Bool :=
  s.users.any (fun p => p.2.email == d.email || p.2.username == d.username)

/-- `MemoryStore.createUser` (part_000 lines 76-119).  The mutation of
`this` is made explicit: the returned state is the store after the call.
`hashedPassword` stands for `bcrypt.hash(d.password, 10)` and `now` for
`new Date()`.  On the duplicate branch the method throws before touching
`this.users` or `this.userIdCounter`, so the input state is returned
unchanged alongside the error. -/
def MemoryStoreState.createUser (s : MemoryStoreState) (d : CreateUserData)
    (hashedPassword : String) (now : Nat) :
    MemoryStoreState × Except String MemoryUser :=
  if hasDuplicateUser s d then
    (s, .error "用户名或邮箱已存在")
  else
    let uid := "user_" ++ toString s.userIdCounter
    let user : MemoryUser :=
      { _id := uid
        username := d.username
        email := d.email
        password := hashedPassword
        role := d.role
        profile :=
          { displayName := d.username
            bio := ""
            institution := ""
            subjects := []
            preferences :=
              { language := "zh-CN"
                theme := "light"
                aiModels := []
                contentTypes := [] } }
        createdAt := now
        updatedAt := now
        lastLoginAt := none }
    ({ s with
        users := mapSet s.users uid user
        userIdCounter := s.userIdCounter + 1 },
     .ok user)

/-! ## Queries against the volatile resource collection
(`MemoryStore.findResources`, part_000 lines 219-287) -/

/-- One member of a `$or` array (part_000 lines 240-252): an object that may
carry a `creator` and/or an `isPublic` key. -/
structure OrCond where
  creator : Option String := none
  isPublic : Option Bool := none
deriving DecidableEq, Repr

/-- Query object accepted by `findResources`/`countResources`.  `orConds`
stands for `$or` and `textSearch` for `$text.$search`; an absent key is
`none`. -/
structure ResQuery where
  creator : Option String := none
  category : Option String := none
  contentType : Option String := none
  isPublic : Option Bool := none
  orConds : Option (List OrCond) := none
  textSearch : Option String := none

/-- Options object accepted by `findResources`: `sort` carries the raw
field selector (modelled as an `Int`-valued projection, covering the
date/number fields the handlers sort by) together with the sort order
(`1` ascending, anything else descending); `skip`/`limit` are the
pagination numbers. -/
structure FindOptions where
  sort : Option ((MemoryResource → Int) × Int) := none
  skip : Option Nat := none
  limit : Option Nat := none

/-- Evaluation of a single `$or` condition against a record (part_000 lines
242-250): `if (condition.creator) ...; if (condition.isPublic !== undefined)
...; return false` — the first guard is a JavaScript truthiness test. -/
def evalOrCond (r : MemoryResource) (c : OrCond) : Bool :=
  if optStrTruthy c.creator then r.creator == c.creator.getD ""
  else
    match c.isPublic with
    | some b => r.isPublic == b
    | none => false

/-- Text-search predicate of `findResources` (part_000 lines 255-262):
case-insensitive substring match over title, description and tags. -/
def textMatches (r : MemoryResource) (search : String) : Bool :=
  let term := search.toLower
  strIncludes r.title.toLower term
    || strIncludes r.description.toLower term
    || r.tags.any (fun tag => strIncludes tag.toLower term)

/-- Filter stage `if (query.creator)` (part_000 lines 223-225). -/
def filterByCreator (q : ResQuery) (l : List MemoryResource) : List MemoryResource :=
  if optStrTruthy q.creator then l.filter (fun r => r.creator == q.creator.getD "") else l

/-- Filter stage `if (query.category)` (part_000 lines 227-229). -/
def filterByCategory (q : ResQuery) (l : List MemoryResource) : List MemoryResource :=
  if optStrTruthy q.category then l.filter (fun r => r.category == q.category.getD "") else l

/-- Filter stage `if (query.contentType)` (part_000 lines 231-233). -/
def filterByContentType (q : ResQuery) (l : List MemoryResource) : List MemoryResource :=
  if optStrTruthy q.contentType then l.filter (fun r => r.contentType == q.contentType.getD "") else l

/-- Filter stage `if (query.isPublic !== undefined)` (part_000 lines 235-237). -/
def filterByIsPublic (q : ResQuery) (l : List MemoryResource) : List MemoryResource :=
  match q.isPublic with
  | some b => l.filter (fun r => r.isPublic == b)
  | none => l

/-- Filter stage `if (query.$or)` (part_000 lines 240-252); a JavaScript
array is always truthy, so the stage runs whenever the key is present. -/
def filterByOr (q : ResQuery) (l : List MemoryResource) : List MemoryResource :=
  match q.orConds with
  | some conds => l.filter (fun r => conds.any (evalOrCond r))
  | none => l

/-- Filter stage `if (query.$text && query.$text.$search)` (part_000 lines
255-262); `$search` is itself truthiness-tested. -/
def filterByText (q : ResQuery) (l : List MemoryResource) : List MemoryResource :=
  match q.textSearch with
  | some s => if s ≠ "" then l.filter (fun r => textMatches r s) else l
  | none => l

/-- The comparator `findResources` passes to `Array.prototype.sort`
(part_000 lines 268-276): it returns `1` or `-1` and never `0`, so two
records with equal raw sort-field values each compare as smaller than the
other — an inconsistent comparison function in the ECMAScript sense. -/
def jsSortCmp (keyf : MemoryResource → Int) (ord : Int) (a b : MemoryResource) : Int :=
  if ord = 1 then (if keyf a > keyf b then 1 else -1)
  else (if keyf a < keyf b then 1 else -1)

/-- Greedy strictly-descending run extension of V8 TimSort's
`CountAndMakeRun` (it extends while `comparator(current, previous) < 0`). -/
def takeDescRun (cmp : α → α → Int) (prev : α) : List α → List α × List α
  | [] => ([], [])
  | c :: rest =>
    if cmp c prev < 0 then
      let (run, r) := takeDescRun cmp c rest
      (c :: run, r)
    else ([], c :: rest)

/-- Greedy ascending run extension of V8 TimSort's `CountAndMakeRun`
(it extends while `comparator(current, previous) >= 0`). -/
def takeAscRun (cmp : α → α → Int) (prev : α) : List α → List α × List α
  | [] => ([], [])
  | c :: rest =>
    if cmp c prev < 0 then ([], c :: rest)
    else
      let (run, r) := takeAscRun cmp c rest
      (c :: run, r)

/-- `CountAndMakeRun` of V8's TimSort: detect the initial ascending or
strictly-descending run and reverse it when descending; returns the
(already oriented) run and the unprocessed tail. -/
def countAndMakeRun (cmp : α → α → Int) : List α → List α × List α
  | [] => ([], [])
  | [a] => ([a], [])
  | a :: b :: rest =>
    if cmp b a < 0 then
      let (run, r) := takeDescRun cmp b rest
      ((a :: b :: run).reverse, r)
    else
      let (run, r) := takeAscRun cmp b rest
      (a :: b :: run, r)

/-- Binary search for the insertion position of `pivot` inside the sorted
prefix `xs`, exactly as V8's `BinaryInsertionSort` computes it:
`while (left < right) { mid; if (comparator(pivot, a[mid]) < 0) right = mid;
else left = mid + 1 }`. -/
def binaryInsertPos (cmp : α → α → Int) (pivot : α) (xs : List α)
    (left right : Nat) : Nat :=
  if _h : left < right then
    let mid := left + (right - left) / 2
    match xs.get? mid with
    | some x =>
      if cmp pivot x < 0 then binaryInsertPos cmp pivot xs left mid
      else binaryInsertPos cmp pivot xs (mid + 1) right
    | none => left
  else left
termination_by right - left
decreasing_by
  · have : left + (right - left) / 2 < right := by omega
    omega
  · omega

/-- Insert an element at a given position of a list. -/
def insertAt (pos : Nat) (x : α) (xs : List α) : List α :=
  xs.take pos ++ x :: xs.drop pos

/-- The insertion loop of V8's `BinaryInsertionSort`: each remaining element
is placed into the sorted prefix at the binary-search position. -/
def binaryInsertAll (cmp : α → α → Int) (sorted : List α) : List α → List α
  | [] => sorted
  | x :: rest =>
    binaryInsertAll cmp (insertAt (binaryInsertPos cmp x sorted 0 sorted.length) x sorted) rest

/-- Node's `Array.prototype.sort` for arrays of fewer than 64 elements.
ECMAScript leaves the result of `sort` with an inconsistent comparator
implementation-defined; Node runs V8's TimSort, and for lengths below 64
`ComputeMinRunLength` returns the whole length, so the sort is exactly one
`CountAndMakeRun` followed by `BinaryInsertionSort` of the remainder, with
no merging.  This definition models that path. -/
def v8SortSmall (cmp : α → α → Int) (l : List α) : List α :=
  let (run, rest) := countAndMakeRun cmp l
  binaryInsertAll cmp run rest

/-- Sort stage `if (options.sort)` of `findResources` (part_000 lines
264-277). -/
def applySort (options : FindOptions) (l : List MemoryResource) : List MemoryResource :=
  match options.sort with
  | some p => v8SortSmall (jsSortCmp p.1 p.2) l
  | none => l

/-- Pagination stage `if (options.skip || options.limit)` of `findResources`
(part_000 lines 279-284): both guards are JavaScript truthiness tests, so a
`skip` or `limit` of `0` counts as absent, and an absent/zero `limit`
defaults to the full filtered length. -/
def applyPagination (options : FindOptions) (l : List MemoryResource) : List MemoryResource :=
  let skipN := options.skip.getD 0
  let limitN := options.limit.getD 0
  if skipN != 0 || limitN != 0 then
    let lim := if limitN = 0 then l.length else limitN
    (l.drop skipN).take lim
  else l

/-- `MemoryStore.findResources` (part_000 lines 219-287): the filter stages
in source order, then the sort, then pagination.  The collection argument is
`this.resources`. -/
def findResources (resources : List MemoryResource) (q : ResQuery)
    (options : FindOptions) : List MemoryResource :=
  applyPagination options
    (applySort options
      (filterByText q
        (filterByOr q
          (filterByIsPublic q
            (filterByContentType q
              (filterByCategory q
                (filterByCreator q resources)))))))

/-- `MemoryStore.countResources` (part_000 lines 318-320):
`this.findResources(query).length` with default (empty) options. -/
def countResources (resources : List MemoryResource) (q : ResQuery) : Nat :=
  (findResources resources q {}).length

/-- Per-record condition enforced by the `query.creator` filter stage
(vacuously true when the stage is skipped). -/
def creatorGuard (q : ResQuery) (r : MemoryResource) : Bool :=
  if optStrTruthy q.creator then r.creator == q.creator.getD "" else true

/-- Per-record condition enforced by the `query.category` filter stage. -/
def categoryGuard (q : ResQuery) (r : MemoryResource) : Bool :=
  if optStrTruthy q.category then r.category == q.category.getD "" else true

/-- Per-record condition enforced by the `query.contentType` filter stage. -/
def contentTypeGuard (q : ResQuery) (r : MemoryResource) : Bool :=
  if optStrTruthy q.contentType then r.contentType == q.contentType.getD "" else true

/-- Per-record condition enforced by the `query.isPublic` filter stage. -/
def isPublicGuard (q : ResQuery) (r : MemoryResource) : Bool :=
  match q.isPublic with
  | some b => r.isPublic == b
  | none => true

/-- Per-record condition enforced by the `$or` filter stage. -/
def orGuard (q : ResQuery) (r : MemoryResource) : Bool :=
  match q.orConds with
  | some conds => conds.any (evalOrCond r)
  | none => true

/-- Per-record condition enforced by the `$text` filter stage. -/
def textGuard (q : ResQuery) (r : MemoryResource) : Bool :=
  match q.textSearch with
  | some s => if s ≠ "" then textMatches r s else true
  | none => true

/-- Predicate form of the `findResources` filter pipeline: one guard per
source filter stage, conjoined in stage order.  A record is returned by an
option-free `findResources` call exactly when it satisfies this predicate. -/
def matchesQuery (q : ResQuery) (r : MemoryResource) : Bool :=
  ((((creatorGuard q r && categoryGuard q r) && contentTypeGuard q r)
    && isPublicGuard q r) && orGuard q r) && textGuard q r

/-- The query object built by `getResources`
(src/server/src/controllers/aiController.ts lines 302-310) when no
category/content-type/search parameter is supplied: non-admins get the
visibility `$or` of creator-match and public-flag-match, admins get the
empty query. -/
def getResourcesQuery (userId role : String) : ResQuery :=
  if role ≠ "admin" then
    { orConds := some [{ creator := some userId }, { isPublic := some true }] }
  else {}

/-! ## Generation dispatcher (src/server/src/services/aiService.ts) -/

/-- The `type` field of a generation request (`'text' | 'image' | 'audio' |
'video'`). -/
inductive GenKind where
  | text
  | image
  | audio
  | video
deriving DecidableEq, Repr

/-- String form of a `GenKind`, for the template literal of the mock
provider's default branch. -/
def GenKind.str : GenKind → String
  | .text => "text"
  | .image => "image"
  | .audio => "audio"
  | .video => "video"

/-- `GenerationRequest` (aiService.ts lines 3-22), restricted to the fields
the embedded providers and the dispatcher read. -/
structure GenerationRequest where
  type : GenKind
  prompt : String
  model : Option String := none
  provider : Option String := none
  educationLevel : Option String := none
  subject : Option String := none
  language : Option String := none
  tone : Option String := none
  imageSize : Option String := none
deriving DecidableEq, Repr

/-- `usage` block of a `GenerationResult` (aiService.ts lines 29-33). -/
structure GenUsage where
  promptTokens : Nat
  completionTokens : Nat
  totalTokens : Nat
deriving DecidableEq, Repr

/-- `metadata` block of a `GenerationResult` (aiService.ts lines 34-38):
`isMock` and `imageSize` are the provider-specific extras; a provider that
omits them leaves them `none` (JavaScript `undefined`). -/
structure GenMetadata where
  finishReason : String
  responseTime : Nat
  isMock : Option Bool := none
  imageSize : Option String := none
deriving DecidableEq, Repr

/-- `GenerationResult` (aiService.ts lines 24-39); `content` is the opaque
payload. -/
structure GenerationResult where
  id : String
  content : String
  provider : String
  model : String
  usage : GenUsage
  metadata : GenMetadata
deriving DecidableEq, Repr

/-- An `AIProvider` (aiService.ts lines 41-44): `generateText` is mandatory,
`generateImage` optional.  The first argument of each stands for
`Date.now()`.  The network-bound OpenAI/Claude adapters are opaque values of
this type supplied when the service is constructed. -/
structure AIProvider where
  generateText : Nat → GenerationRequest → GenerationResult
  generateImage : Option (Nat → GenerationRequest → GenerationResult) := none

/-- Body of the mock text content (aiService.ts lines 260-273), with the
`||`-defaulted interpolations of the template literal. -/
def mockTextContent (req : GenerationRequest) : String :=
  match req.type with
  | .text =>
    "这是一个模拟的AI生成内容，基于您的提示词：\"" ++ req.prompt ++ "\"。\n\n"
      ++ "这是为了演示目的而生成的教学资源内容。在实际环境中，这里会是由AI模型生成的高质量教育内容。\n\n"
      ++ "内容特点：\n"
      ++ "- 适合" ++ jsOrStr req.educationLevel "通用" ++ "教育水平\n"
      ++ "- 学科：" ++ jsOrStr req.subject "通用" ++ "\n"
      ++ "- 语言：" ++ jsOrStr req.language "zh-cn" ++ "\n"
      ++ "- 风格：" ++ jsOrStr req.tone "professional" ++ "\n\n"
      ++ "请注意：这是模拟内容，实际使用时需要配置真实的AI API密钥。"
  | t => "模拟的" ++ t.str ++ "内容生成完成"

/-- `MockProvider.generateText` (aiService.ts lines 253-292). -/
def mockGenerateText (now : Nat) (req : GenerationRequest) : GenerationResult :=
  let content := mockTextContent req
  { id := "mock_" ++ toString now
    content := content
    provider := "mock"
    model := "mock-model"
    usage :=
      { promptTokens := req.prompt.length
        completionTokens := content.length
        totalTokens := req.prompt.length + content.length }
    metadata :=
      { finishReason := "stop"
        responseTime := now
        isMock := some true } }

/-- `MockProvider.generateImage` (aiService.ts lines 294-315); the content
is the fixed base64 SVG placeholder, abbreviated here to its prefix since no
claim inspects it. -/
def mockGenerateImage (now : Nat) (req : GenerationRequest) : GenerationResult :=
  { id := "mock_img_" ++ toString now
    content := "data:image/svg+xml;base64,PHN2ZyB3aWR0aD0iNTEyIi..."
    provider := "mock"
    model := "mock-image-model"
    usage :=
      { promptTokens := req.prompt.length
        completionTokens := 0
        totalTokens := req.prompt.length }
    metadata :=
      { finishReason := "stop"
        responseTime := now
        isMock := some true
        imageSize := some (req.imageSize.getD "512x512") } }

/-- The always-registered `MockProvider` (aiService.ts lines 252-316). -/
def mockProvider : AIProvider :=
  { generateText := mockGenerateText
    generateImage := some mockGenerateImage }

/-- The provider registry of `AIService` (aiService.ts lines 318-334): the
`this.providers` map as an association list, whose contents depend on which
API keys are configured (the OpenAI and Claude adapters are opaque
network-bound values); the mock provider is always added. -/
structure AIService where
  providers : List (String × AIProvider)

/-- The `AIService` constructor (aiService.ts lines 321-334): register
`openai` and `claude` when their keys are configured, then always `mock`. -/
def AIService.init (openai claude : Option AIProvider) : AIService :=
  { providers :=
      (match openai with | some p => [("openai", p)] | none => [])
        ++ (match claude with | some p => [("claude", p)] | none => [])
        ++ [("mock", mockProvider)] }

/-- `Map.prototype.get` on the provider registry. -/
def lookupProvider (ps : List (String × AIProvider)) (name : String) : Option AIProvider :=
  ps.lookup name

/-- `AIService.generateContent` (aiService.ts lines 335-355): the source's
`request.provider || 'openai'` is a truthiness default, so an absent OR
empty-string provider name falls back to `openai` (`jsOrStr`); an
unregistered name is then silently replaced by `mock`; finally — only when
the request is for an image AND the adapter has a `generateImage`
capability — `generateImage` is called, otherwise `generateText`. -/
def AIService.generateContent (svc : AIService) (now : Nat)
    (req : GenerationRequest) : Except String GenerationResult :=
  let providerName := jsOrStr req.provider "openai"
  let providerName :=
    if (lookupProvider svc.providers providerName).isSome then providerName else "mock"
  match lookupProvider svc.providers providerName with
  | none => .error ("不支持的AI提供商: " ++ providerName)
  | some p =>
    if req.type = .image then
      match p.generateImage with
      | some g => .ok (g now req)
      | none => .ok (p.generateText now req)
    else .ok (p.generateText now req)

/-! ## Resource controllers (src/server/src/controllers/aiController.ts) -/

/-- The like toggle of `likeResource` (aiController.ts lines 551-561):
remove every occurrence of the user's id when present, append it when
absent. -/
def toggleLike (userId : String) (likes : List String) : List String :=
  if likes.contains userId then likes.filter (fun l => l != userId)
  else likes ++ [userId]

/-- `n` successive `likeResource` calls by the same account. -/
def toggleLikeN (userId : String) : Nat → List String → List String
  | 0, likes => likes
  | n + 1, likes => toggleLike userId (toggleLikeN userId n likes)

/-- Outcome of a `getResourceById` request, as the HTTP layer observes it:
404, 403, a 200 with the returned resource, or the 500 produced by the
handler's catch-all. -/
inductive ResourceViewOutcome where
  | notFound
  | forbidden
  | ok (r : MemoryResource)
  | serverError
deriving DecidableEq, Repr

/-- The volatile-backend path of `getResourceById` (aiController.ts lines
369-423 with `resource = memoryStore.findResourceById(id)`, part_000 lines
289-291).  After the permission check the handler runs
`resource.views += 1; await resource.save()` for every non-owner: a
`MemoryResource` is a plain object with no `views` field and no `save`
method, so `views` becomes `NaN` and the `save()` call throws a
`TypeError` that the handler's catch turns into the 500 response
`获取资源详情失败`.  The owner branch skips the increment and responds 200. -/
def getResourceByIdMemory (resources : List MemoryResource)
    (id userId role : String) : ResourceViewOutcome :=
  match resources.find? (fun r => r._id == id) with
  | none => .notFound
  | some r =>
    let isOwner := r.creator == userId
    if !isOwner && !r.isPublic && role != "admin" then .forbidden
    else if !isOwner then .serverError
    else .ok r

/-! ## Backend selector (src/unnamed/part_000 lines 361-365) -/

/-- `shouldUseMemoryStore` (part_000 lines 361-365): read the driver's live
`mongoose.connection.readyState` at call time and report fallback exactly
when it differs from `1` (mongoose's `connected`).  As a total Lean
function of the probed state it has no failure mode and consults no cached
flag. -/
def shouldUseMemoryStore (readyState : Nat) : Bool :=
  readyState != 1

/-- Modelled from the spec: the Backend Selector contract
`isPersistentAvailable() -> bool` of section 4.1 — the persistent backend
is available exactly when the driver's live `readyState` is `connected`
(`1`).  The source realizes this contract only through its negation
`shouldUseMemoryStore`. -/
def isPersistentAvailable (readyState : Nat) : Bool :=
  readyState == 1

/-! ## Concrete records used by witnesses and counterexamples -/

/-- Demo `teacher` account (part_000 lines 334-340). -/
def demoTeacher : MemoryUser :=
  { _id := "user_1"
    username := "teacher"
    email := "teacher@example.com"
    password := "hash1"
    role := "teacher"
    profile :=
      { displayName := "teacher"
        bio := ""
        institution := ""
        subjects := []
        preferences :=
          { language := "zh-CN"
            theme := "light"
            aiModels := []
            contentTypes := [] } }
    createdAt := 0
    updatedAt := 0
    lastLoginAt := none }

/-- Store state after the demo teacher registration. -/
def demoState : MemoryStoreState :=
  { users := [("user_1", demoTeacher)]
    userIdCounter := 2
    resourceIdCounter := 1
    resources := [] }

/-- Empty volatile store. -/
def emptyState : MemoryStoreState :=
  { users := []
    userIdCounter := 1
    resourceIdCounter := 1
    resources := [] }

/-- A public resource created by `user_1`. -/
def pubResource : MemoryResource :=
  { _id := "resource_1"
    title := "Lesson"
    description := "A lesson plan"
    content := "body"
    contentType := "text"
    category := "lesson_plan"
    tags := ["math"]
    creator := "user_1"
    isPublic := true
    metadata := "m"
    createdAt := 10
    updatedAt := 10 }

/-- A second, private resource created by `user_1`, inserted after
`pubResource` and carrying the same `createdAt` value. -/
def privResource : MemoryResource :=
  { _id := "resource_2"
    title := "Worksheet"
    description := "A worksheet"
    content := "body2"
    contentType := "text"
    category := "worksheet"
    tags := ["math"]
    creator := "user_1"
    isPublic := false
    metadata := "m"
    createdAt := 10
    updatedAt := 11 }

/-- A generation request naming an unregistered provider, as in the spec's
`provider:"nonexistent"` scenario. -/
def reqNonexistent : GenerationRequest :=
  { type := .text
    prompt := "hello"
    provider := some "nonexistent" }

/-- A fixed result standing for whatever the text-only Claude adapter's
network call would return; its concrete fields are irrelevant to the
dispatch decision under scrutiny. -/
def textOnlyResult : GenerationResult :=
  { id := "claude_0"
    content := "text answer"
    provider := "claude"
    model := "claude-3-sonnet-20240229"
    usage := { promptTokens := 0, completionTokens := 0, totalTokens := 0 }
    metadata := { finishReason := "stop", responseTime := 0 } }

/-- A registered adapter with no `generateImage` capability, as
`ClaudeProvider` is (aiService.ts lines 165-250 define only
`generateText`). -/
def textOnlyProvider : AIProvider :=
  { generateText := fun _ _ => textOnlyResult }

/-- Service constructed with only the Claude key configured. -/
def svcTextOnly : AIService :=
  AIService.init none (some textOnlyProvider)

/-- An image-type request addressed to the text-only `claude` adapter. -/
def reqImageClaude : GenerationRequest :=
  { type := .image
    prompt := "draw a diagram"
    provider := some "claude" }

end Contest

namespace Contest

/-- C1: on the volatile backend, creating a user whose username or email is
already taken throws `用户名或邮箱已存在` and leaves the user map and the id
counter untouched; otherwise the call succeeds and appends exactly one new
user (the generated id being fresh, as the monotone counter guarantees in
every reachable state). -/
theorem createUser_unique_spec (s : MemoryStoreState) (d : CreateUserData)
    (hp : String) (now : Nat) :
    (hasDuplicateUser s d = true →
      s.createUser d hp now = (s, .error "用户名或邮箱已存在"))
    ∧ (hasDuplicateUser s d = false →
       ("user_" ++ toString s.userIdCounter) ∉ s.users.map Prod.fst →
      ∃ u : MemoryUser,
        s.createUser d hp now =
          ({ s with users := s.users ++ [(u._id, u)]
                    userIdCounter := s.userIdCounter + 1 }, .ok u)
        ∧ u.username = d.username ∧ u.email = d.email
        ∧ ((s.createUser d hp now).1.users.length = s.users.length + 1)) := by
  constructor
  · intro hdup
    simp [MemoryStoreState.createUser, hdup]
  · intro hdup hfresh
    have hkey : s.users.any (fun p => p.1 == ("user_" ++ toString s.userIdCounter)) = false := by
      rw [List.any_eq_false]
      intro p hp' heq
      exact hfresh ((eq_of_beq heq) ▸ List.mem_map_of_mem Prod.fst hp')
    refine ⟨{ _id := "user_" ++ toString s.userIdCounter
              username := d.username
              email := d.email
              password := hp
              role := d.role
              profile :=
                { displayName := d.username
                  bio := ""
                  institution := ""
                  subjects := []
                  preferences :=
                    { language := "zh-CN"
                      theme := "light"
                      aiModels := []
                      contentTypes := [] } }
              createdAt := now
              updatedAt := now
              lastLoginAt := none }, ?_, rfl, rfl, ?_⟩
    · simp [MemoryStoreState.createUser, hdup, mapSet, hkey]
    · simp [MemoryStoreState.createUser, hdup, mapSet, hkey]

/-- Witness for C1: re-registering the demo teacher's email fails with the
exact error and unchanged state, and a registration against the empty store
inserts exactly one user. -/
theorem createUser_unique_spec_witness :
    (demoState.createUser
        { username := "other", email := "teacher@example.com",
          password := "pw", role := "student" } "h" 7
      = (demoState, .error "用户名或邮箱已存在"))
    ∧ ((emptyState.createUser
        { username := "t1", email := "t1@x.com",
          password := "Aa123456", role := "teacher" } "h" 7).1.users.length = 1) := by
  constructor
  · exact (createUser_unique_spec demoState _ "h" 7).1 (by decide)
  · obtain ⟨u, -, -, -, hlen⟩ :=
      (createUser_unique_spec emptyState
        { username := "t1", email := "t1@x.com",
          password := "Aa123456", role := "teacher" } "h" 7).2
        (by decide) (by decide)
    simpa using hlen

/-- The `query.creator` stage filters by its guard. -/
theorem filterByCreator_eq (q : ResQuery) (l : List MemoryResource) :
    filterByCreator q l = l.filter (creatorGuard q) := by
  unfold filterByCreator creatorGuard
  cases hg : optStrTruthy q.creator <;> simp [hg, List.filter_true]

/-- The `query.category` stage filters by its guard. -/
theorem filterByCategory_eq (q : ResQuery) (l : List MemoryResource) :
    filterByCategory q l = l.filter (categoryGuard q) := by
  unfold filterByCategory categoryGuard
  cases hg : optStrTruthy q.category <;> simp [hg, List.filter_true]

/-- The `query.contentType` stage filters by its guard. -/
theorem filterByContentType_eq (q : ResQuery) (l : List MemoryResource) :
    filterByContentType q l = l.filter (contentTypeGuard q) := by
  unfold filterByContentType contentTypeGuard
  cases hg : optStrTruthy q.contentType <;> simp [hg, List.filter_true]

/-- The `query.isPublic` stage filters by its guard. -/
theorem filterByIsPublic_eq (q : ResQuery) (l : List MemoryResource) :
    filterByIsPublic q l = l.filter (isPublicGuard q) := by
  unfold filterByIsPublic isPublicGuard
  cases hb : q.isPublic <;> simp [hb, List.filter_true]

/-- The `$or` stage filters by its guard. -/
theorem filterByOr_eq (q : ResQuery) (l : List MemoryResource) :
    filterByOr q l = l.filter (orGuard q) := by
  unfold filterByOr orGuard
  cases hc : q.orConds <;> simp [hc, List.filter_true]

/-- The `$text` stage filters by its guard. -/
theorem filterByText_eq (q : ResQuery) (l : List MemoryResource) :
    filterByText q l = l.filter (textGuard q) := by
  unfold filterByText textGuard
  cases hs : q.textSearch with
  | none => simp [hs, List.filter_true]
  | some s =>
    by_cases hne : s = "" <;> simp [hs, hne, List.filter_true]

/-- An option-free `findResources` call returns exactly the records that
satisfy `matchesQuery`: the six filter stages fuse into a single filter. -/
theorem findResources_noopts_eq_filter (rs : List MemoryResource) (q : ResQuery) :
    findResources rs q {} = rs.filter (matchesQuery q) := by
  show filterByText q (filterByOr q (filterByIsPublic q (filterByContentType q
      (filterByCategory q (filterByCreator q rs)))))
    = rs.filter (matchesQuery q)
  rw [filterByCreator_eq, filterByCategory_eq, filterByContentType_eq,
    filterByIsPublic_eq, filterByOr_eq, filterByText_eq,
    List.filter_filter, List.filter_filter, List.filter_filter,
    List.filter_filter, List.filter_filter]
  refine List.filter_congr ?_
  intro a _
  simp only [matchesQuery]
  cases creatorGuard q a <;> cases categoryGuard q a <;> cases contentTypeGuard q a <;>
    cases isPublicGuard q a <;> cases orGuard q a <;> cases textGuard q a <;> rfl

/-- C10: on the volatile backend, `countResources(query)` equals the length
of the option-free `findResources(query)` — which in turn is the number of
stored records satisfying the query predicate — so the pagination `total`
reported by the handlers equals the number of matching records. -/
theorem countResources_eq_total_matching (rs : List MemoryResource) (q : ResQuery) :
    countResources rs q = (findResources rs q {}).length
    ∧ countResources rs q = (rs.filter (matchesQuery q)).length := by
  refine ⟨rfl, ?_⟩
  rw [countResources, findResources_noopts_eq_filter]

/-- C3: the volatile backend's evaluation of the visibility query built by
`getResources` returns a record exactly when the requester created it, the
record is public, or the requester is an admin.  (`userId ≠ ""` because a
JavaScript truthiness test guards the creator condition; every account
identifier either backend generates is non-empty.) -/
theorem findResources_visibility (rs : List MemoryResource) (userId role : String)
    (r : MemoryResource) (h : userId ≠ "") :
    r ∈ findResources rs (getResourcesQuery userId role) {} ↔
      r ∈ rs ∧ (r.creator = userId ∨ r.isPublic = true ∨ role = "admin") := by
  rw [findResources_noopts_eq_filter, List.mem_filter]
  by_cases hrole : role = "admin"
  · simp [getResourcesQuery, hrole, matchesQuery, creatorGuard, categoryGuard,
      contentTypeGuard, isPublicGuard, orGuard, textGuard, optStrTruthy]
  · simp [getResourcesQuery, hrole, matchesQuery, creatorGuard, categoryGuard,
      contentTypeGuard, isPublicGuard, orGuard, textGuard, optStrTruthy,
      evalOrCond, h]

/-- Witness for C3: a non-creator, non-admin account sees a public record. -/
theorem findResources_visibility_witness :
    pubResource ∈ findResources [pubResource] (getResourcesQuery "user_2" "student") {} :=
  (findResources_visibility [pubResource] "user_2" "student" pubResource
    (by decide)).mpr ⟨List.mem_singleton.mpr rfl, Or.inr (Or.inl rfl)⟩

/-- A `findResources` call whose options carry only `skip` and `limit`
paginates the option-free result. -/
theorem findResources_paginate_eq (rs : List MemoryResource) (q : ResQuery)
    (k n : Nat) :
    findResources rs q { skip := some k, limit := some n }
      = applyPagination { skip := some k, limit := some n } (findResources rs q {}) := rfl

/-- With a non-zero `limit`, the pagination stage is exactly
`slice(skip, skip + limit)`. -/
theorem applyPagination_some (k n : Nat) (hn : n ≠ 0) (l : List MemoryResource) :
    applyPagination { skip := some k, limit := some n } l = (l.drop k).take n := by
  unfold applyPagination
  simp [hn]

/-- C7 (amended): for a fixed query, a fixed collection, and page size
`n ≥ 1`, pages `skip=k, limit=n` and `skip=k+n, limit=n` concatenate to
`skip=k, limit=2n` (hence are order-consistent), and they are disjoint
whenever the stored records are pairwise distinct.  (The claim's universal
quantification over `n` fails at `n = 0` because `options.limit` is
truthiness-tested — see the counterexample.) -/
theorem findResources_pagination_split (rs : List MemoryResource) (q : ResQuery)
    (k n : Nat) (hn : 1 ≤ n) :
    (findResources rs q { skip := some k, limit := some n }
       ++ findResources rs q { skip := some (k + n), limit := some n }
     = findResources rs q { skip := some k, limit := some (2 * n) })
    ∧ (rs.Nodup →
       List.Disjoint (findResources rs q { skip := some k, limit := some n })
         (findResources rs q { skip := some (k + n), limit := some n })) := by
  have hn0 : n ≠ 0 := by omega
  have h2n0 : 2 * n ≠ 0 := by omega
  have e1 : findResources rs q { skip := some k, limit := some n }
      = ((rs.filter (matchesQuery q)).drop k).take n := by
    rw [findResources_paginate_eq, findResources_noopts_eq_filter,
      applyPagination_some k n hn0]
  have e2 : findResources rs q { skip := some (k + n), limit := some n }
      = ((rs.filter (matchesQuery q)).drop (k + n)).take n := by
    rw [findResources_paginate_eq, findResources_noopts_eq_filter,
      applyPagination_some (k + n) n hn0]
  have e3 : findResources rs q { skip := some k, limit := some (2 * n) }
      = ((rs.filter (matchesQuery q)).drop k).take (2 * n) := by
    rw [findResources_paginate_eq, findResources_noopts_eq_filter,
      applyPagination_some k (2 * n) h2n0]
  have hsplit : ((rs.filter (matchesQuery q)).drop k).take (2 * n)
      = ((rs.filter (matchesQuery q)).drop k).take n
        ++ ((rs.filter (matchesQuery q)).drop (k + n)).take n := by
    rw [two_mul, List.take_add]
    congr 1
    rw [List.drop_drop]
  constructor
  · rw [e1, e2, e3, hsplit]
  · intro hnd
    have hfnd : (rs.filter (matchesQuery q)).Nodup := hnd.filter _
    have hbig : (((rs.filter (matchesQuery q)).drop k).take (2 * n)).Nodup :=
      List.Nodup.sublist
        ((List.take_sublist _ _).trans (List.drop_sublist _ _)) hfnd
    rw [hsplit] at hbig
    rw [e1, e2]
    exact ((List.nodup_append).1 hbig).2.2

/-- Witness for C7: two stored records, page size 1. -/
theorem findResources_pagination_split_witness :
    (findResources [pubResource, privResource] {} { skip := some 0, limit := some 1 }
       ++ findResources [pubResource, privResource] {} { skip := some (0 + 1), limit := some 1 }
     = findResources [pubResource, privResource] {} { skip := some 0, limit := some (2 * 1) })
    ∧ List.Disjoint
        (findResources [pubResource, privResource] {} { skip := some 0, limit := some 1 })
        (findResources [pubResource, privResource] {} { skip := some (0 + 1), limit := some 1 }) := by
  have h := findResources_pagination_split [pubResource, privResource] {} 0 1 (by omega)
  exact ⟨h.1, h.2 (by decide)⟩

/-- Counterexample to C7 as stated: at `k = 1`, `n = 0` the `limit` of `0`
is falsy, so both pages degenerate to `slice(1)` and their concatenation
duplicates the tail instead of equalling the `limit = 2·0` call. -/
theorem pagination_zero_limit_counterexample :
    findResources [pubResource, privResource] {} { skip := some 1, limit := some 0 }
       ++ findResources [pubResource, privResource] {} { skip := some (1 + 0), limit := some 0 }
     ≠ findResources [pubResource, privResource] {} { skip := some 1, limit := some (2 * 0) } := by
  decide

/-- C6 (amended): the `findResources` sort is NOT stable on ties.  The
comparator never returns `0` — on equal raw sort-field values it reports
the second element as smaller for either sort order — so V8's run detection
classifies an equal-key pair as a descending run and reverses it: two
records with equal sort keys come back in reversed insertion order. -/
theorem findResources_sort_ties_reversed (keyf : MemoryResource → Int) (ord : Int)
    (a b : MemoryResource) (h : keyf a = keyf b) :
    findResources [a, b] {} { sort := some (keyf, ord) } = [b, a] := by
  have hcmp : jsSortCmp keyf ord b a = -1 := by
    unfold jsSortCmp
    rw [h]
    by_cases ho : ord = 1 <;> simp [ho]
  show v8SortSmall (jsSortCmp keyf ord) [a, b] = [b, a]
  unfold v8SortSmall countAndMakeRun
  simp [hcmp, takeDescRun, binaryInsertAll]

/-- Witness for C6 (amended): the two demo records share `createdAt = 10`
and come back reversed under the `createdAt` ascending sort. -/
theorem findResources_sort_ties_reversed_witness :
    ((fun r : MemoryResource => (r.createdAt : Int)) pubResource
      = (fun r : MemoryResource => (r.createdAt : Int)) privResource)
    ∧ findResources [pubResource, privResource] {}
        { sort := some (fun r => (r.createdAt : Int), 1) } = [privResource, pubResource] :=
  ⟨rfl, findResources_sort_ties_reversed (fun r => (r.createdAt : Int)) 1
    pubResource privResource rfl⟩

/-- Counterexample to C6 as stated: equal-key records do NOT keep their
insertion order `[pubResource, privResource]` under the sort. -/
theorem sort_stability_counterexample :
    findResources [pubResource, privResource] {}
        { sort := some (fun r => (r.createdAt : Int), 1) }
      ≠ [pubResource, privResource] := by
  decide

/-- One like call strictly flips the caller's membership in the likes
list. -/
theorem toggleLike_mem (u : String) (l : List String) :
    u ∈ toggleLike u l ↔ u ∉ l := by
  by_cases h : u ∈ l
  · simp [toggleLike, List.elem_eq_true_of_mem h, List.mem_filter, h]
  · have hc : l.contains u = false := by
      rw [Bool.eq_false_iff]
      intro hx
      exact h (List.elem_iff.mp hx)
    simp [toggleLike, hc, h]

/-- One like call by a currently-absent account appends exactly one entry. -/
theorem toggleLike_count_of_not_mem (u : String) (l : List String) (h : u ∉ l) :
    List.count u (toggleLike u l) = List.count u l + 1 := by
  have hc : l.contains u = false := by
    rw [Bool.eq_false_iff]
    intro hx
    exact h (List.elem_iff.mp hx)
  simp [toggleLike, hc, h, List.count_append]

/-- One like call by a currently-present account removes every entry of
that account. -/
theorem toggleLike_count_of_mem (u : String) (l : List String) (h : u ∈ l) :
    List.count u (toggleLike u l) = 0 := by
  rw [List.count_eq_zero]
  simp [toggleLike, List.elem_eq_true_of_mem h, h, List.mem_filter]

/-- C8: `likeResource` realises an idempotent toggle — after `N` calls by
the same account, that account's membership in `likes` is the initial
membership XOR the parity of `N`, and starting from the unliked state the
number of its entries is `N mod 2`: duplicates never accumulate. -/
theorem likeToggle_spec (u : String) (l : List String) (n : Nat) :
    (u ∈ toggleLikeN u n l ↔ Xor' (u ∈ l) (n % 2 = 1))
    ∧ (u ∉ l → List.count u (toggleLikeN u n l) = n % 2) := by
  induction n with
  | zero =>
    constructor
    · simp [toggleLikeN, Xor']
    · intro h
      simp [toggleLikeN, List.count_eq_zero.mpr h]
  | succ n ih =>
    constructor
    · show u ∈ toggleLike u (toggleLikeN u n l) ↔ _
      rw [toggleLike_mem]
      have hp : ((n + 1) % 2 = 1) ↔ ¬ (n % 2 = 1) := by omega
      rw [hp]
      simp only [ih.1]
      unfold Xor'
      tauto
    · intro h0
      show List.count u (toggleLike u (toggleLikeN u n l)) = (n + 1) % 2
      rcases Nat.mod_two_eq_zero_or_one n with hpar | hpar
      · have hcnt := ih.2 h0
        rw [hpar] at hcnt
        have hnm : u ∉ toggleLikeN u n l := by
          rw [← List.count_eq_zero]
          exact hcnt
        rw [toggleLike_count_of_not_mem u _ hnm, hcnt]
        omega
      · have hcnt := ih.2 h0
        rw [hpar] at hcnt
        have hm : u ∈ toggleLikeN u n l := by
          refine List.count_pos_iff.mp ?_
          omega
        rw [toggleLike_count_of_mem u _ hm]
        omega

/-- Witness for C8: three toggles from the empty likes list leave exactly
one entry. -/
theorem likeToggle_spec_witness :
    (("user_9" : String) ∉ ([] : List String))
    ∧ List.count "user_9" (toggleLikeN "user_9" 3 []) = 1 := by
  have h := (likeToggle_spec "user_9" [] 3).2 (by simp)
  exact ⟨by simp, h⟩

/-- Whatever API keys are configured, the registry built by the `AIService`
constructor maps `mock` to the mock provider. -/
theorem lookup_mock (openai claude : Option AIProvider) :
    lookupProvider (AIService.init openai claude).providers "mock" = some mockProvider := by
  cases openai <;> cases claude <;> rfl

/-- C2: a generation request whose provider field genuinely names a
provider (a truthy, i.e. non-empty, string — an empty one is defaulted to
`openai` by `request.provider || 'openai'`) with no registered adapter does
not fail — the dispatcher substitutes the mock adapter and answers with
`provider = "mock"` and `metadata.isMock = true`, for any request type. -/
theorem generateContent_unknown_provider_mock
    (openai claude : Option AIProvider) (now : Nat) (req : GenerationRequest)
    (name : String)
    (h1 : req.provider = some name)
    (hne : name ≠ "")
    (h2 : lookupProvider (AIService.init openai claude).providers name = none) :
    ∃ r : GenerationResult,
      (AIService.init openai claude).generateContent now req = .ok r
        ∧ r.provider = "mock" ∧ r.metadata.isMock = some true := by
  unfold AIService.generateContent
  rw [h1]
  simp only [jsOrStr, if_neg hne, h2, Option.isSome_none, Bool.false_eq_true, if_false,
    lookup_mock]
  by_cases ht : req.type = GenKind.image
  · exact ⟨mockGenerateImage now req, by simp [ht, mockProvider], rfl, rfl⟩
  · exact ⟨mockGenerateText now req, by simp [ht, mockProvider], rfl, rfl⟩

/-- Witness for C2: the spec's `provider:"nonexistent"` scenario against a
service with no API keys configured. -/
theorem generateContent_unknown_provider_mock_witness :
    reqNonexistent.provider = some "nonexistent"
    ∧ ("nonexistent" : String) ≠ ""
    ∧ lookupProvider (AIService.init none none).providers "nonexistent" = none
    ∧ ∃ r : GenerationResult,
        (AIService.init none none).generateContent 0 reqNonexistent = .ok r
          ∧ r.provider = "mock" ∧ r.metadata.isMock = some true :=
  ⟨rfl, by decide, rfl,
    generateContent_unknown_provider_mock none none 0 reqNonexistent "nonexistent"
      rfl (by decide) rfl⟩

/-- C5 (amended): an image-type request dispatched to a registered adapter
lacking the generate-image capability does NOT fail: `generateContent`
silently invokes the adapter's `generateText` and returns its (non-image)
result.  The only error branch of the dispatcher is the unreachable
adapter-not-found throw. -/
theorem generateContent_image_fallsback_to_text
    (svc : AIService) (now : Nat) (req : GenerationRequest) (name : String)
    (p : AIProvider)
    (h1 : jsOrStr req.provider "openai" = name)
    (h2 : lookupProvider svc.providers name = some p)
    (h3 : p.generateImage = none)
    (h4 : req.type = GenKind.image) :
    svc.generateContent now req = .ok (p.generateText now req) := by
  unfold AIService.generateContent
  rw [h1]
  simp only [h2, Option.isSome_some, if_true, h3, h4]

/-- Witness for C5 (amended): the concrete text-only `claude` adapter. -/
theorem generateContent_image_fallsback_to_text_witness :
    jsOrStr reqImageClaude.provider "openai" = "claude"
    ∧ lookupProvider svcTextOnly.providers "claude" = some textOnlyProvider
    ∧ textOnlyProvider.generateImage = none
    ∧ reqImageClaude.type = GenKind.image
    ∧ svcTextOnly.generateContent 3 reqImageClaude
        = .ok (textOnlyProvider.generateText 3 reqImageClaude) :=
  ⟨rfl, rfl, rfl, rfl,
    generateContent_image_fallsback_to_text svcTextOnly 3 reqImageClaude "claude"
      textOnlyProvider rfl rfl rfl rfl⟩

/-- Counterexample to C5 as stated: an image request against the registered
text-only `claude` adapter succeeds with the adapter's text result instead
of failing with any error. -/
theorem image_without_capability_counterexample :
    svcTextOnly.generateContent 0 reqImageClaude = .ok textOnlyResult := rfl

/-- C4 (code bug, volatile path): on the volatile backend, a non-owner read
of an accessible resource does not increment a view counter by 1 — it ends
in the handler's 500 catch, because `MemoryResource` records have no
`views` field (`undefined + 1` is `NaN`) and no `save` method (the call
throws a `TypeError`).  Evaluated at the failing input: the public demo
resource read by the non-creator `user_2`. -/
theorem getResourceById_memory_nonowner_500 :
    getResourceByIdMemory [pubResource] "resource_1" "user_2" "student"
      = ResourceViewOutcome.serverError := by
  decide

/-- C9: the Backend Selector is a total boolean function of the driver's
live `readyState` — it is the negation of the spec's
`isPersistentAvailable` contract and reports fallback exactly when the
probed state is not `connected` (`1`); being a total function it has no
throwing path and consults no cached flag. -/
theorem backendSelector_total_live (readyState : Nat) :
    shouldUseMemoryStore readyState = !(isPersistentAvailable readyState)
    ∧ (shouldUseMemoryStore readyState = true ↔ readyState ≠ 1) := by
  constructor
  · rfl
  · simp [shouldUseMemoryStore]

end Contest
